import Mathlib

/-!
Verification of the gojango query builder and reflection-based record mapper
("QuerySet" + generic Create/FindAll/FindByID/Update/Delete, dual backends)
against its natural-language specification.

The Go source is shallowly embedded: Go `interface{}` values become `GoValue`
(keeping the dynamic type, since Go interface equality compares dynamic types),
`database/sql` rows become association lists, and the reflection loops over
struct fields become list traversals over explicit field descriptors.
The external SQL engine (SQLite) is not part of the repository; where its
behavior is needed it is modelled from the specification and marked as such.
-/

/-- A scalar Go value (the element shape that reaches the ORM's bound
parameters).  Go slices of `interface{}` may in principle nest, but every
value the modelled API paths ever put in a slice is a scalar, so slice
elements are scalars in this embedding. -/
inductive GoPrim where
  | str : String → GoPrim
  | int : Int → GoPrim
  | uint : Nat → GoPrim
  | bool : Bool → GoPrim
deriving DecidableEq, Repr

/-- A Go `interface{}` value as used by the ORM: the dynamic type is kept,
because Go interface comparison (`==`) distinguishes `int(0)` from `uint(0)`. -/
inductive GoValue where
  | str : String → GoValue
  | int : Int → GoValue
  | uint : Nat → GoValue
  | bool : Bool → GoValue
  | slice : List GoPrim → GoValue
deriving DecidableEq, Repr

/-- A slice element viewed back as an `interface{}` value
(`slice.Index(i).Interface()`). -/
def GoPrim.toValue : GoPrim → GoValue
  | .str s => .str s
  | .int i => .int i
  | .uint n => .uint n
  | .bool b => .bool b

/-- Go `fmt.Sprintf("%v", x)` for a scalar. -/
def GoPrim.sprint : GoPrim → String
  | .str s => s
  | .int i => toString i
  | .uint n => toString n
  | .bool b => if b then "true" else "false"

/-- Go `fmt.Sprintf("%v", value)` for the value shapes the ORM handles. -/
def sprintV : GoValue → String
  | .str s => s
  | .int i => toString i
  | .uint n => toString n
  | .bool b => if b then "true" else "false"
  | .slice xs => "[" ++ String.intercalate " " (xs.map GoPrim.sprint) ++ "]"

/-! ### Go `strings` package operations

Implemented over the character list `String.data` by structural recursion so
that the kernel can evaluate them (the built-in byte-position based `String`
functions do not reduce). -/

/-- Fueled worker for `goSplit`: splits a character list on a nonempty
separator, Go `strings.Split` style.  The fuel is the list length, which
bounds the number of steps. -/
def splitCharsF (sep : List Char) : Nat → List Char → List (List Char)
  | _, [] => [[]]
  | 0, s => [s]
  | fuel + 1, c :: rest =>
    if sep.isPrefixOf (c :: rest) then
      match splitCharsF sep fuel ((c :: rest).drop sep.length) with
      | [] => [[]]
      | segs => [] :: segs
    else
      match splitCharsF sep fuel rest with
      | [] => [[c]]
      | seg :: segs => (c :: seg) :: segs

/-- Go `strings.Split`. -/
def goSplit (s sep : String) : List String :=
  if sep = "" then s.data.map (fun c => String.mk [c])
  else (splitCharsF sep.data s.data.length s.data).map String.mk

/-- Go `strings.HasPrefix`. -/
def goStartsWith (s p : String) : Bool := p.data.isPrefixOf s.data

/-- Go `strings.HasSuffix`. -/
def goEndsWith (s p : String) : Bool := p.data.isSuffixOf s.data

/-- Drop the first `n` characters (ASCII inputs make bytes and characters
agree with the Go slicing the source performs). -/
def goDrop (s : String) (n : Nat) : String := String.mk (s.data.drop n)

/-- Drop the last `n` characters. -/
def goDropRight (s : String) (n : Nat) : String := String.mk (s.data.take (s.data.length - n))

/-- Go `strings.ToLower` (ASCII case folding, which is all the source uses). -/
def goToLower (s : String) : String := String.mk (s.data.map Char.toLower)

/-- Go `strings.TrimSpace`. -/
def goTrim (s : String) : String :=
  String.mk (((s.data.dropWhile Char.isWhitespace).reverse.dropWhile Char.isWhitespace).reverse)

/-- Fueled worker for `goContains`: does `sub` occur in the list? -/
def containsCharsF (sub : List Char) : Nat → List Char → Bool
  | _, [] => sub.isEmpty
  | 0, s => sub.isPrefixOf s
  | fuel + 1, c :: rest => sub.isPrefixOf (c :: rest) || containsCharsF sub fuel rest

/-- Go `strings.Contains`. -/
def goContains (s sub : String) : Bool := containsCharsF sub.data s.data.length s.data

example : goSplit "age__gte" "__" = ["age", "gte"] := by decide
example : goSplit "age" "__" = ["age"] := by decide
example : goSplit "a__" "__" = ["a", ""] := by decide
example : goContains "id,primary_key,auto_increment" "auto_increment" = true := by decide
example : goDropRight "name = ?" 4 = "name" := by decide

/-- A stored row / attribute mapping: column name to value.  Go stores rows as
`map[string]interface{}`; keys are distinct and looked up, so an association
list with first-match lookup is an adequate model. -/
abbrev Row := List (String × GoValue)

/-- Map lookup on a row. -/
def lookupRow (row : Row) (col : String) : Option GoValue :=
  (row.find? (fun p => p.1 = col)).map (fun p => p.2)

/-- The query builder state, from `QuerySet` in gojango.go: accumulated WHERE
condition strings, positional arguments, order clause, limit and offset.
(The Go struct field `where` is called `whereConds` here because `where` is a
Lean keyword; `db`/`model`/`modelType` carry no query-plan content and are
represented by `tableName` alone.) -/
structure QuerySet where
  tableName : String
  whereConds : List String
  args : List GoValue
  orderBy : String
  limit : Int
  offset : Int
deriving DecidableEq, Repr

/-- A fresh builder for a table, as `App.NewQuerySet` produces (all plan
fields at their Go zero values). -/
def QuerySet.new (table : String) : QuerySet :=
  { tableName := table, whereConds := [], args := [], orderBy := "", limit := 0, offset := 0 }

/-- The field name `Filter` extracts: the text before the first `__`
(`strings.Split(field, "__")[0]`). -/
def filterFieldName (field : String) : String := (goSplit field "__").getD 0 ""

/-- The lookup `Filter` extracts: `parts[1]` when the split produced more
than one part, else `exact`. -/
def filterLookup (field : String) : String :=
  let parts := goSplit field "__"
  if parts.length > 1 then parts.getD 1 "" else "exact"

/-- `QuerySet.Filter` from gojango.go (lines 343-416), translated branch by
branch.  The Go `switch` on the lookup is an if-chain; the two `goto
skipValueAdd` branches (`in` with a slice value, and `isnull`) jump over BOTH
trailing appends, so they leave `whereConds` unchanged even though a condition
string was computed.  `isnull` performs the type assertion `value.(bool)`,
which panics on a non-boolean value; the panic is modelled as `none`. -/
def QuerySet.Filter (qs : QuerySet) (field : String) (value : GoValue) : Option QuerySet :=
  let fieldName := filterFieldName field
  let lookup := filterLookup field
  let add := fun (condition : String) (v : GoValue) =>
    some { qs with whereConds := qs.whereConds ++ [condition], args := qs.args ++ [v] }
  if lookup = "exact" then add (fieldName ++ " = ?") value
  else if lookup = "iexact" then add ("LOWER(" ++ fieldName ++ ") = LOWER(?)") value
  else if lookup = "contains" then
    add (fieldName ++ " LIKE ?") (.str ("%" ++ sprintV value ++ "%"))
  else if lookup = "icontains" then
    add ("LOWER(" ++ fieldName ++ ") LIKE LOWER(?)") (.str ("%" ++ sprintV value ++ "%"))
  else if lookup = "startswith" then
    add (fieldName ++ " LIKE ?") (.str (sprintV value ++ "%"))
  else if lookup = "endswith" then
    add (fieldName ++ " LIKE ?") (.str ("%" ++ sprintV value))
  else if lookup = "gt" then add (fieldName ++ " > ?") value
  else if lookup = "gte" then add (fieldName ++ " >= ?") value
  else if lookup = "lt" then add (fieldName ++ " < ?") value
  else if lookup = "lte" then add (fieldName ++ " <= ?") value
  else if lookup = "in" then
    match value with
    | .slice elems =>
        -- the IN condition is computed but discarded: `goto skipValueAdd`
        -- jumps past `newQS.where = append(newQS.where, condition)`
        some { qs with args := qs.args ++ elems.map GoPrim.toValue }
    | _ => add (fieldName ++ " = ?") value
  else if lookup = "isnull" then
    match value with
    | .bool _ =>
        -- IS NULL / IS NOT NULL condition computed but discarded by the goto
        some qs
    | _ => none -- `value.(bool)` panics
  else add (fieldName ++ " = ?") value

/-- `QuerySet.Exclude` from gojango.go (lines 419-428): run `Filter`, then
overwrite the last condition with its negation (when any condition exists). -/
def QuerySet.Exclude (qs : QuerySet) (field : String) (value : GoValue) : Option QuerySet :=
  (qs.Filter field value).map fun newQS =>
    if newQS.whereConds.length > 0 then
      let lastIndex := newQS.whereConds.length - 1
      let negated := "NOT (" ++ newQS.whereConds.getD lastIndex "" ++ ")"
      { newQS with whereConds := newQS.whereConds.set lastIndex negated }
    else newQS

/-- `QuerySet.OrderBy` from gojango.go: a leading `-` means descending. -/
def QuerySet.OrderBy (qs : QuerySet) (field : String) : QuerySet :=
  if goStartsWith field "-" then
    { qs with orderBy := (goDrop field 1) ++ " DESC" }
  else
    { qs with orderBy := field ++ " ASC" }

/-- `QuerySet.Limit` from gojango.go: stores the limit unconditionally. -/
def QuerySet.Limit (qs : QuerySet) (n : Int) : QuerySet :=
  { qs with limit := n }

/-- `QuerySet.Offset` from gojango.go: stores the offset unconditionally. -/
def QuerySet.Offset (qs : QuerySet) (n : Int) : QuerySet :=
  { qs with offset := n }

/-- `QuerySet.buildSQL` from gojango.go (lines 508-528): WHERE only when the
condition list is nonempty, ORDER BY only when set, LIMIT/OFFSET only when
strictly positive. -/
def QuerySet.buildSQL (qs : QuerySet) : String :=
  let sql := "SELECT * FROM " ++ qs.tableName
  let sql := if qs.whereConds.length > 0 then
      sql ++ " WHERE " ++ String.intercalate " AND " qs.whereConds
    else sql
  let sql := if qs.orderBy ≠ "" then sql ++ " ORDER BY " ++ qs.orderBy else sql
  let sql := if qs.limit > 0 then sql ++ " LIMIT " ++ toString qs.limit else sql
  if qs.offset > 0 then sql ++ " OFFSET " ++ toString qs.offset else sql

/-- The structured content of the SELECT statement `buildSQL` emits: same
branching as `buildSQL`, keeping the clauses apart so the engine model can
interpret them.  `limitClause`/`offsetClause` are `none` exactly when
`buildSQL` emits no LIMIT/OFFSET text. -/
structure SQLStmt where
  table : String
  conds : List String
  args : List GoValue
  orderBy : String
  limitClause : Option Int
  offsetClause : Option Int
deriving DecidableEq, Repr

/-- The statement `buildSQL` describes, read off the same `if` conditions. -/
def QuerySet.buildStmt (qs : QuerySet) : SQLStmt :=
  { table := qs.tableName
    conds := qs.whereConds
    args := qs.args
    orderBy := qs.orderBy
    limitClause := if qs.limit > 0 then some qs.limit else none
    offsetClause := if qs.offset > 0 then some qs.offset else none }

/-- Rendering a structured statement back to SQL text. -/
def renderStmt (st : SQLStmt) : String :=
  let sql := "SELECT * FROM " ++ st.table
  let sql := if st.conds.length > 0 then
      sql ++ " WHERE " ++ String.intercalate " AND " st.conds
    else sql
  let sql := if st.orderBy ≠ "" then sql ++ " ORDER BY " ++ st.orderBy else sql
  let sql := match st.limitClause with
    | some n => sql ++ " LIMIT " ++ toString n
    | none => sql
  match st.offsetClause with
  | some n => sql ++ " OFFSET " ++ toString n
  | none => sql

/-- `buildStmt` is faithful to `buildSQL`: rendering the structured statement
gives exactly the SQL text the source builds. -/
theorem buildSQL_eq_renderStmt (qs : QuerySet) : qs.buildSQL = renderStmt qs.buildStmt := by
  unfold QuerySet.buildSQL renderStmt QuerySet.buildStmt
  by_cases h1 : qs.whereConds.length > 0 <;>
  by_cases h2 : qs.orderBy = "" <;>
  by_cases h3 : qs.limit > 0 <;>
  by_cases h4 : qs.offset > 0 <;>
  simp [h1, h2, h3, h4]

/-! ### SQL engine model

The relational backend hands the generated statement to SQLite, which is an
external dependency of the repository.  The engine below is modelled from the
specification (section 4.4 lookup semantics, section 4.5 translation): rows
matching the conjunction of the WHERE conditions are selected, ordering is by
generic comparison on the designated column, and LIMIT/OFFSET slice the
result.  Condition strings are interpreted by their shape, covering exactly
the grammar `QuerySet.Filter`/`Exclude` emit. -/

/-- LOWER() applied to a value: lowercases text, leaves other values alone. -/
def lowerVal : GoValue → GoValue
  | .str s => .str (goToLower s)
  | v => v

/-- Engine equality between stored value and bound parameter: numeric values
compare by magnitude, text and booleans by value, mixed kinds are unequal. -/
def sqlEq : GoValue → GoValue → Bool
  | .int a, .int b => a == b
  | .int a, .uint b => a == (b : Int)
  | .uint a, .int b => (a : Int) == b
  | .uint a, .uint b => a == b
  | .str a, .str b => a == b
  | .bool a, .bool b => a == b
  | _, _ => false

/-- Numeric view of a value, for engine order comparisons. -/
def goNum : GoValue → Option Int
  | .int a => some a
  | .uint a => some (a : Int)
  | _ => none

/-- Engine strict order: numerics by magnitude, text lexicographically. -/
def sqlLt (a b : GoValue) : Bool :=
  match goNum a, goNum b with
  | some x, some y => x < y
  | _, _ =>
    match a, b with
    | .str x, .str y => decide (x < y)
    | _, _ => false

/-- Engine non-strict order. -/
def sqlLe (a b : GoValue) : Bool := sqlLt a b || sqlEq a b

/-- Comparison against a possibly-NULL column (NULL sorts first). -/
def optValLe : Option GoValue → Option GoValue → Bool
  | none, _ => true
  | some _, none => false
  | some a, some b => sqlLe a b

/-- Remainder of the list after the first occurrence of `p` (for LIKE). -/
def afterFirst (p : List Char) : List Char → Option (List Char)
  | [] => if p.isEmpty then some [] else none
  | c :: rest =>
    if p.isPrefixOf (c :: rest) then some ((c :: rest).drop p.length)
    else afterFirst p rest

/-- Matches the remaining `%`-separated LIKE segments against `s`; the last
segment is anchored at the end. -/
def likeSegs : List (List Char) → List Char → Bool
  | [], s => s.isEmpty
  | [p], s => p.isSuffixOf s
  | p :: rest, s =>
    match afterFirst p s with
    | some s2 => likeSegs rest s2
    | none => false

/-- SQL LIKE with `%` wildcards (the only wildcard the generated patterns
use), per the specification lookup table. -/
def likeMatch (pat s : String) : Bool :=
  match goSplit pat "%" with
  | [] => false
  | [p] => s == p
  | p :: rest => goStartsWith s p && likeSegs (rest.map String.data) (s.data.drop p.data.length)

/-- Text view of a value for LIKE matching (patterns are always text). -/
def valText : GoValue → Option String
  | .str s => some s
  | _ => none

/-- Fueled interpreter for one generated WHERE condition.  Consumes bound
parameters positionally and returns the truth value together with the
remaining parameters; `none` means the condition does not belong to the
generated grammar or the parameters ran out. -/
def evalCondF (row : Row) : Nat → String → List GoValue → Option (Bool × List GoValue)
  | 0, _, _ => none
  | fuel + 1, c, args =>
    if goStartsWith c "NOT (" && goEndsWith c ")" then
      (evalCondF row fuel (goDrop (goDropRight c 1) 5) args).map (fun p => (!p.1, p.2))
    else if goEndsWith c " IS NOT NULL" then
      some ((lookupRow row (goDropRight c 12)).isSome, args)
    else if goEndsWith c " IS NULL" then
      some ((lookupRow row (goDropRight c 8)).isNone, args)
    else if goStartsWith c "LOWER(" && goEndsWith c ") = LOWER(?)" then
      let col := goDropRight (goDrop c 6) 12
      match args with
      | [] => none
      | a :: rest =>
        some ((lookupRow row col).any (fun v => sqlEq (lowerVal v) (lowerVal a)), rest)
    else if goStartsWith c "LOWER(" && goEndsWith c ") LIKE LOWER(?)" then
      let col := goDropRight (goDrop c 6) 15
      match args with
      | [] => none
      | a :: rest =>
        some ((lookupRow row col).any (fun v =>
          match valText (lowerVal v), valText (lowerVal a) with
          | some s, some pat => likeMatch pat s
          | _, _ => false), rest)
    else if goEndsWith c " LIKE ?" then
      let col := goDropRight c 7
      match args with
      | [] => none
      | a :: rest =>
        some ((lookupRow row col).any (fun v =>
          match valText v, valText a with
          | some s, some pat => likeMatch pat s
          | _, _ => false), rest)
    else if goEndsWith c " >= ?" then
      let col := goDropRight c 5
      match args with
      | [] => none
      | a :: rest => some ((lookupRow row col).any (fun v => sqlLe a v), rest)
    else if goEndsWith c " <= ?" then
      let col := goDropRight c 5
      match args with
      | [] => none
      | a :: rest => some ((lookupRow row col).any (fun v => sqlLe v a), rest)
    else if goEndsWith c " > ?" then
      let col := goDropRight c 4
      match args with
      | [] => none
      | a :: rest => some ((lookupRow row col).any (fun v => sqlLt a v), rest)
    else if goEndsWith c " < ?" then
      let col := goDropRight c 4
      match args with
      | [] => none
      | a :: rest => some ((lookupRow row col).any (fun v => sqlLt v a), rest)
    else if goEndsWith c " = ?" then
      let col := goDropRight c 4
      match args with
      | [] => none
      | a :: rest => some ((lookupRow row col).any (fun v => sqlEq v a), rest)
    else none

/-- Interpreter for one generated WHERE condition (fuel bounds the `NOT (`
unwrapping, each step of which shortens the string). -/
def evalCond (c : String) (args : List GoValue) (row : Row) : Option (Bool × List GoValue) :=
  evalCondF row c.data.length c args

/-- Conjunction of the WHERE conditions, threading the positional
parameters through in order. -/
def evalConds : List String → List GoValue → Row → Option Bool
  | [], _, _ => some true
  | c :: rest, args, row =>
    match evalCond c args row with
    | some (b, remaining) => (evalConds rest remaining row).map (fun b2 => b && b2)
    | none => none

/-- Insertion into a sorted list (engine ORDER BY). -/
def insertByLe (le : Row → Row → Bool) (x : Row) : List Row → List Row
  | [] => [x]
  | y :: ys => if le x y then x :: y :: ys else y :: insertByLe le x ys

/-- Insertion sort (engine ORDER BY). -/
def sortByLe (le : Row → Row → Bool) : List Row → List Row
  | [] => []
  | x :: xs => insertByLe le x (sortByLe le xs)

/-- Engine ORDER BY: the clause is `col ASC` or `col DESC` as produced by
`QuerySet.OrderBy`; an empty clause leaves the rows in stored order. -/
def orderRows (ob : String) (rows : List Row) : List Row :=
  if ob = "" then rows
  else if goEndsWith ob " DESC" then
    let col := goDropRight ob 5
    sortByLe (fun a b => optValLe (lookupRow b col) (lookupRow a col)) rows
  else if goEndsWith ob " ASC" then
    let col := goDropRight ob 4
    sortByLe (fun a b => optValLe (lookupRow a col) (lookupRow b col)) rows
  else rows

/-- Engine execution of a SELECT statement: filter by the WHERE conjunction,
order, then OFFSET and LIMIT (absent clauses do nothing). -/
def execStmt (rows : List Row) (st : SQLStmt) : List Row :=
  let matched := rows.filter (fun r => (evalConds st.conds st.args r).getD false)
  let ordered := orderRows st.orderBy matched
  let afterOffset := match st.offsetClause with
    | some k => ordered.drop k.toNat
    | none => ordered
  match st.limitClause with
  | some k => afterOffset.take k.toNat
  | none => afterOffset

/-- A database handle, from `DB` in the database package: either the mock
backend or the relational one.  `rows` is the stored data of the table under
query (for the mock backend this is the table's entry in `tables`). -/
structure DBHandle where
  isMock : Bool
  rows : List Row
deriving DecidableEq, Repr

/-- `DB.Query` from the database package (lines 715-729): the mock branch
returns an empty result for every query ("For now, return empty results for
mock queries"); the relational branch executes the statement. -/
def DB.Query (db : DBHandle) (st : SQLStmt) : List Row :=
  if db.isMock then [] else execStmt db.rows st

/-- `QuerySet.All` from gojango.go (lines 459-469): build the SQL and hand it
with the accumulated arguments to the backend. -/
def QuerySet.All (db : DBHandle) (qs : QuerySet) : List Row :=
  DB.Query db qs.buildStmt

/-- `QuerySet.Update` from gojango.go (lines 531-553): an empty change map
fails before anything reaches the backend; otherwise the UPDATE statement is
built with the SET parameters preceding the WHERE parameters, the WHERE
clause (and its arguments) attached only when conditions were accumulated.
The change map is passed as an association list to keep the embedding
deterministic (Go map iteration order is unspecified).  The engine's
application of the statement is `execUpdate` below. -/
def applyChanges (changes : List (String × GoValue)) (row : Row) : Row :=
  changes.foldl (fun r ch => r.map (fun p => if p.1 = ch.1 then (p.1, ch.2) else p)) row

/-- Engine execution of the generated UPDATE statement: every row satisfying
the WHERE conjunction gets the SET pairs applied (positional parameter
binding of the SET clause is modelled structurally). -/
def execUpdate (rows : List Row) (conds : List String) (whereArgs : List GoValue)
    (changes : List (String × GoValue)) : List Row :=
  rows.map (fun r => if (evalConds conds whereArgs r).getD false then applyChanges changes r else r)

/-- `QuerySet.Update`, composed with the engine. -/
def QuerySet.Update (qs : QuerySet) (data : List (String × GoValue)) (rows : List Row) :
    Except String (List Row) :=
  if data.length = 0 then .error "no data to update"
  else if qs.whereConds.length > 0 then
    .ok (execUpdate rows qs.whereConds qs.args data)
  else
    .ok (execUpdate rows [] [] data)

/-- The stored rows after a `QuerySet.Update` call: an error leaves the store
untouched (the statement never reaches `Exec`). -/
def QuerySet.applyUpdate (qs : QuerySet) (data : List (String × GoValue)) (rows : List Row) :
    List Row :=
  match qs.Update data rows with
  | .error _ => rows
  | .ok rs => rs

/-! ### Reflection-based record mapper and the two Create/Find paths -/

/-- One exported struct field of a record type, as the reflection loops see
it: Go field name, `db` tag, current value.  (Unexported fields are skipped
by every loop in the source and are therefore not modelled; the embedding
covers flat record types, one reflection level deep.) -/
structure GoStructField where
  goName : String
  dbTag : String
  value : GoValue
deriving DecidableEq, Repr

/-- `MockDB.modelToMap` from the database package (lines 692-712): one entry
per field, keyed by the lower-cased Go field name — the `db` tag is ignored
on this path. -/
def MockDB.modelToMap (fs : List GoStructField) : Row :=
  fs.map (fun f => (goToLower f.goName, f.value))

/-- One table of the mock store: ordered rows plus the auto-increment
counter (`MockDB.tables[t]` and `MockDB.nextID[t]`). -/
structure MockTable where
  rows : List Row
  nextID : Int
deriving DecidableEq, Repr

/-- The table state `MockDB.AutoMigrate` initializes: no rows, counter 1. -/
def MockTable.empty : MockTable := { rows := [], nextID := 1 }

/-- `MockDB.Create` from the database package (lines 557-587): convert the
record to a map; only when the map lacks an `id` key, assign the counter
(stored as a Go `int`) and write it back into a field named `ID` via
`SetUint` (the canonical `models.Model` identity field is a `uint`). -/
def MockDB.Create (tbl : MockTable) (fs : List GoStructField) :
    MockTable × List GoStructField :=
  let record := MockDB.modelToMap fs
  if (lookupRow record "id").isSome then
    ({ tbl with rows := tbl.rows ++ [record] }, fs)
  else
    let assigned := tbl.nextID
    let record2 := record ++ [("id", GoValue.int assigned)]
    let fs2 := if fs.any (fun f => f.goName = "ID") then
        fs.map (fun f => if f.goName = "ID" then { f with value := GoValue.uint assigned.toNat } else f)
      else fs
    ({ rows := tbl.rows ++ [record2], nextID := tbl.nextID + 1 }, fs2)

/-- `fmt.Sscanf(id, "%d", &targetID)` for a fully numeric string. -/
def parseDigits (cs : List Char) : Option Nat :=
  if cs.isEmpty then none
  else cs.foldl (fun acc c =>
    match acc with
    | some n => if c.isDigit then some (n * 10 + (c.toNat - 48)) else none
    | none => none) (some 0)

/-- String to Go `int`, as `MockDB.FindByID` scans the key. -/
def goAtoi (s : String) : Option Int :=
  match s.data with
  | [] => none
  | c :: rest =>
      if c = '-' then (parseDigits rest).map (fun n => -(n : Int))
      else (parseDigits (c :: rest)).map (fun n => (n : Int))

/-- `MockDB.FindByID` from the database package (lines 622-646): scan the key
into a Go `int` and return the first row whose `id` entry is interface-equal
to it — interface equality compares the dynamic type, so a stored `uint`
never equals the scanned `int`.  `none` models the "record not found" /
"invalid ID format" errors. -/
def MockDB.FindByID (tbl : MockTable) (id : String) : Option Row :=
  match goAtoi id with
  | none => none
  | some target =>
    tbl.rows.find? (fun r =>
      match lookupRow r "id" with
      | some v => v == GoValue.int target
      | none => false)

/-- A record instance handed to `DB.Create`: its fields plus the optional
`BeforeCreate` capability (present when the record type implements the
hook interface). -/
structure GoRecord where
  fields : List GoStructField
  beforeCreate : Option (List GoStructField → List GoStructField)

/-- First element of the `db` tag: the column name. -/
def colNameOf (tag : String) : String := (goSplit tag ",").getD 0 ""

/-- The INSERT payload `DB.Create` builds (lines 244-271): skip untagged and
`-`-tagged fields and any field whose tag contains `auto_increment`; one
(column, value) pair per remaining field, in field order. -/
def insertPayload (fs : List GoStructField) : Row :=
  (fs.filter (fun f =>
    !(f.dbTag = "" || f.dbTag = "-") && !(goContains f.dbTag "auto_increment"))).map
    (fun f => (colNameOf f.dbTag, f.value))

/-- Backend state for `DB.Create`: `mock = some t` is the mock backend
(`db.mock != nil`), otherwise `rows` is the relational table contents. -/
structure DBState where
  mock : Option MockTable
  rows : List Row

/-- `DB.Create` from the database package (lines 223-291), in source order:
the dispatch to the mock happens BEFORE the `BeforeCreate` hook check, so on
the mock backend the hook is never invoked; on the relational backend the
hook (when present) runs first and the INSERT payload is built from the
hooked record.  The relational generated-key assignment (`LastInsertId` +
`setIDField`) follows the INSERT and is outside what the claims about this
function need; it is not modelled here. -/
def DB.Create (db : DBState) (r : GoRecord) : Except String (DBState × GoRecord) :=
  match db.mock with
  | some tbl =>
    let res := MockDB.Create tbl r.fields
    .ok ({ db with mock := some res.1 }, { r with fields := res.2 })
  | none =>
    let r2 := match r.beforeCreate with
      | some h => { r with fields := h r.fields }
      | none => r
    let payload := insertPayload r2.fields
    if payload.length = 0 then .error "no columns to insert"
    else .ok ({ db with rows := db.rows ++ [payload] }, r2)

/-! ### Auto-migration column definitions -/

/-- The Go kind of a struct field's type, as `buildColumnDefinition`
switches on it. -/
inductive GoKind where
  | stringK
  | intK
  | floatK
  | boolK
  | byteSliceK
  | sliceK
  | timeK
  | otherK
deriving DecidableEq, Repr

/-- The column type computed from the field's Go kind
(database package lines 142-166). -/
def baseColumnType : GoKind → String
  | .stringK => "TEXT"
  | .intK => "INTEGER"
  | .floatK => "REAL"
  | .boolK => "BOOLEAN"
  | .byteSliceK => "BLOB"
  | .sliceK => "TEXT"
  | .timeK => "DATETIME"
  | .otherK => "TEXT"

/-- The option-parsing loop of `buildColumnDefinition` (lines 171-193):
walks the tag parts in order, appending constraint tokens as they are seen
and rewriting the column type on `size:`/`type:`; unknown tokens are
ignored. -/
def processOpts : List String → String → List String → String × List String
  | [], ct, cs => (ct, cs)
  | p0 :: rest, ct, cs =>
    let p := goTrim p0
    if p = "primary_key" then processOpts rest ct (cs ++ ["PRIMARY KEY"])
    else if p = "auto_increment" then processOpts rest ct (cs ++ ["AUTOINCREMENT"])
    else if p = "not_null" then processOpts rest ct (cs ++ ["NOT NULL"])
    else if p = "unique" then processOpts rest ct (cs ++ ["UNIQUE"])
    else if goStartsWith p "default:" then processOpts rest ct (cs ++ ["DEFAULT " ++ goDrop p 8])
    else if goStartsWith p "size:" then
      processOpts rest (if ct = "TEXT" then "VARCHAR(" ++ goDrop p 5 ++ ")" else ct) cs
    else if goStartsWith p "type:" then processOpts rest (goDrop p 5) cs
    else processOpts rest ct cs

/-- `DB.buildColumnDefinition` from the database package (lines 134-201). -/
def buildColumnDefinition (kind : GoKind) (dbTag : String) : String :=
  let parts := goSplit dbTag ","
  let columnName := parts.getD 0 ""
  if columnName = "" then ""
  else
    let tc := processOpts parts.tail (baseColumnType kind) []
    let definition := columnName ++ " " ++ tc.1
    if tc.2.length > 0 then definition ++ " " ++ String.intercalate " " tc.2 else definition

/-- The constraint token one tag part contributes, if any (the same
classification `processOpts` applies, without the type rewriting). -/
def constraintTokenOf (p0 : String) : Option String :=
  let p := goTrim p0
  if p = "primary_key" then some "PRIMARY KEY"
  else if p = "auto_increment" then some "AUTOINCREMENT"
  else if p = "not_null" then some "NOT NULL"
  else if p = "unique" then some "UNIQUE"
  else if goStartsWith p "default:" then some ("DEFAULT " ++ goDrop p 8)
  else none

example : buildColumnDefinition .intK "id,primary_key,auto_increment" =
    "id INTEGER PRIMARY KEY AUTOINCREMENT" := by decide

example : buildColumnDefinition .stringK "name,not_null,size:100" =
    "name VARCHAR(100) NOT NULL" := by decide

example : evalCond "age >= ?" [.int 18] [("age", .int 30)] = some (true, []) := by decide

example : evalCond "NOT (name = ?)" [.str "Ann"] [("name", .str "Bob")] =
    some (true, []) := by decide

example : evalCond "name LIKE ?" [.str "%nn%"] [("name", .str "Ann")] =
    some (true, []) := by decide

example : (QuerySet.new "users").Filter "age__gte" (.int 18) =
    some { tableName := "users", whereConds := ["age >= ?"], args := [.int 18],
           orderBy := "", limit := 0, offset := 0 } := by decide

example : (QuerySet.new "users").Filter "age__in" (.slice [.int 18, .int 21]) =
    some { tableName := "users", whereConds := [], args := [.int 18, .int 21],
           orderBy := "", limit := 0, offset := 0 } := by decide

example : (QuerySet.new "users").Filter "x__isnull" (.bool true) =
    some (QuerySet.new "users") := by decide

example : (QuerySet.new "users").Filter "x__isnull" (.str "oops") = none := by decide

/-! ### Claim theorems -/

/-- Claim C1: for every stored dataset and every chain of
Filter/Exclude/OrderBy/Limit/Offset calls followed by All, the relational
backend and the mock backend return identical record sequences.  The code
refutes this: `DB.Query`'s mock branch returns an empty result for every
query, so already the empty chain over a one-row table diverges. -/
theorem backend_query_equivalence_fails_on_stored_data :
    QuerySet.All { isMock := false, rows := [[("id", .int 1), ("name", .str "Ann")]] }
      (QuerySet.new "users") = [[("id", .int 1), ("name", .str "Ann")]] ∧
    QuerySet.All { isMock := true, rows := [[("id", .int 1), ("name", .str "Ann")]] }
      (QuerySet.new "users") = [] ∧
    QuerySet.All { isMock := false, rows := [[("id", .int 1), ("name", .str "Ann")]] }
      (QuerySet.new "users") ≠
    QuerySet.All { isMock := true, rows := [[("id", .int 1), ("name", .str "Ann")]] }
      (QuerySet.new "users") := by decide

/-- Claim C2: creating a record with an unset auto-increment primary key
populates the key field, and FindByKey with that key returns the record.
The mock backend refutes this: `modelToMap` always emits an `id` entry (the
zero value of the key field), so the "not set" branch of `MockDB.Create`
never fires — the key field stays 0, the counter is never consumed, and
`FindByID` finds nothing under the assigned key (nor under "0", because the
stored `uint 0` is not interface-equal to the scanned `int 0`). -/
theorem mock_create_never_assigns_generated_key :
    (MockDB.Create MockTable.empty
      [{ goName := "ID", dbTag := "id,primary_key,auto_increment", value := .uint 0 },
       { goName := "Name", dbTag := "name,not_null", value := .str "Ann" }]).2 =
      [{ goName := "ID", dbTag := "id,primary_key,auto_increment", value := .uint 0 },
       { goName := "Name", dbTag := "name,not_null", value := .str "Ann" }] ∧
    (MockDB.Create MockTable.empty
      [{ goName := "ID", dbTag := "id,primary_key,auto_increment", value := .uint 0 },
       { goName := "Name", dbTag := "name,not_null", value := .str "Ann" }]).1 =
      { rows := [[("id", .uint 0), ("name", .str "Ann")]], nextID := 1 } ∧
    MockDB.FindByID
      (MockDB.Create MockTable.empty
        [{ goName := "ID", dbTag := "id,primary_key,auto_increment", value := .uint 0 },
         { goName := "Name", dbTag := "name,not_null", value := .str "Ann" }]).1 "1" = none ∧
    MockDB.FindByID
      (MockDB.Create MockTable.empty
        [{ goName := "ID", dbTag := "id,primary_key,auto_increment", value := .uint 0 },
         { goName := "Name", dbTag := "name,not_null", value := .str "Ann" }]).1 "0" = none := by
  decide

/-- Claim C3: every Filter call — every lookup, including `in` and `isnull` —
appends exactly one predicate.  The code refutes this for `in` (with a slice
value) and `isnull`: the `goto skipValueAdd` skips the `where` append, so the
predicate count stays 0 on a fresh builder (the claim demands 1), while the
`in` elements still land in the bound parameters. -/
theorem filter_in_isnull_append_no_predicate :
    ((QuerySet.new "users").Filter "age__in" (.slice [.int 18, .int 21])).map
      (fun q => q.whereConds.length) = some 0 ∧
    ((QuerySet.new "users").Filter "age__in" (.slice [.int 18, .int 21])).map
      (fun q => q.args.length) = some 2 ∧
    ((QuerySet.new "users").Filter "flag__isnull" (.bool true)).map
      (fun q => q.whereConds.length) = some 0 ∧
    (QuerySet.new "users").whereConds.length = 0 := by decide

/-- Claim C4: `Filter("f__in", vs)` adds one predicate `f IN (?,...,?)` and
appends the elements of `vs` as bound parameters.  The code refutes the
predicate half: the IN condition is computed and then discarded by the
`goto`, so the new plan has no WHERE condition at all — the generated SQL is
a bare SELECT — while the elements were still appended to the parameters in
order. -/
theorem filter_in_lookup_discards_condition :
    (QuerySet.new "users").Filter "age__in" (.slice [.int 18, .int 21]) =
      some { tableName := "users", whereConds := [], args := [.int 18, .int 21],
             orderBy := "", limit := 0, offset := 0 } ∧
    ((QuerySet.new "users").Filter "age__in" (.slice [.int 18, .int 21])).map
      (fun q => q.buildSQL) = some "SELECT * FROM users" := by decide

/-- Claim C6 counterexample: the claim says the before-create hook is invoked
before persisting on both backends.  On the mock backend it is not:
`DB.Create` dispatches to `MockDB.Create` before the hook check, so a hook
that rewrites `Name` to "hooked" leaves the mock-persisted attributes at
"Ann", while the relational path persists "hooked". -/
theorem mock_create_skips_before_create_hook :
    (DB.Create { mock := some MockTable.empty, rows := [] }
        { fields := [{ goName := "Name", dbTag := "name,not_null", value := .str "Ann" }],
          beforeCreate := some (fun fs => fs.map (fun f =>
            if f.goName = "Name" then { f with value := .str "hooked" } else f)) }).toOption.map
      (fun p => p.1.mock.map MockTable.rows) =
      some (some [[("name", .str "Ann"), ("id", .int 1)]]) ∧
    (DB.Create { mock := none, rows := [] }
        { fields := [{ goName := "Name", dbTag := "name,not_null", value := .str "Ann" }],
          beforeCreate := some (fun fs => fs.map (fun f =>
            if f.goName = "Name" then { f with value := .str "hooked" } else f)) }).toOption.map
      (fun p => p.1.rows) = some [[("name", .str "hooked")]] := by decide

/-- Claim C7 counterexample: the claim says constraint tokens are emitted in
the fixed order primary-key, auto-increment, not-null, unique, default
regardless of tag order.  The code emits them in tag order: the tag
`id,auto_increment,primary_key` yields AUTOINCREMENT before PRIMARY KEY. -/
theorem column_constraints_follow_tag_order :
    buildColumnDefinition .intK "id,auto_increment,primary_key" =
      "id INTEGER AUTOINCREMENT PRIMARY KEY" ∧
    buildColumnDefinition .intK "id,auto_increment,primary_key" ≠
      "id INTEGER PRIMARY KEY AUTOINCREMENT" := by decide

/-- Claim C10 counterexample: the claim says every Filter call splices the
text before the first `__` into the generated WHERE condition.  With the
`isnull` lookup the call succeeds but appends no condition at all, so
"ghost" is never spliced anywhere. -/
theorem filter_isnull_splices_nothing :
    (QuerySet.new "users").Filter "ghost__isnull" (.bool true) =
      some (QuerySet.new "users") ∧
    ((QuerySet.new "users").Filter "ghost__isnull" (.bool true)).map
      (fun q => q.whereConds) = some [] := by decide

/-! ### Helper lemmas -/

/-- Setting the last element of `cs ++ [c]`. -/
theorem set_last_append (cs : List String) (c x : String) :
    (cs ++ [c]).set ((cs ++ [c]).length - 1) x = cs ++ [x] := by
  induction cs with
  | nil => rfl
  | cons a as ih => simp [List.set, ih]

/-- Reading the last element of `cs ++ [c]`. -/
theorem getD_last_append (cs : List String) (c : String) :
    (cs ++ [c]).getD ((cs ++ [c]).length - 1) "" = c := by
  induction cs with
  | nil => rfl
  | cons a as ih => simp [ih]

/-- The constraint accumulator of `processOpts` collects exactly the tokens
of the tag parts, in tag order. -/
theorem processOpts_snd (parts : List String) (ct : String) (cs : List String) :
    (processOpts parts ct cs).2 = cs ++ parts.filterMap constraintTokenOf := by
  induction parts generalizing ct cs with
  | nil => simp [processOpts]
  | cons p rest ih =>
    simp only [processOpts, constraintTokenOf, List.filterMap_cons]
    split_ifs <;> simp_all [ih]

/-- Claim C5: `Exclude(field, value)` produces the same plan as
`Filter(field, value)` except that the last (most recently appended)
predicate is wrapped in `NOT (...)`; in particular
`Filter("a",1).Filter("b",2).Exclude("c",3)` yields predicates
`[a = ?, b = ?, NOT (c = ?)]` with arguments `[1, 2, 3]`. -/
theorem exclude_negates_last_predicate (qs : QuerySet) (field : String) (value : GoValue)
    (q : QuerySet) (cs : List String) (c : String)
    (hf : qs.Filter field value = some q) (hw : q.whereConds = cs ++ [c]) :
    (qs.Exclude field value = some { q with whereConds := cs ++ ["NOT (" ++ c ++ ")"] }) ∧
    ((((QuerySet.new "t").Filter "a" (.int 1)).bind (fun q1 => q1.Filter "b" (.int 2))).bind
      (fun q2 => q2.Exclude "c" (.int 3)) =
      some { tableName := "t", whereConds := ["a = ?", "b = ?", "NOT (c = ?)"],
             args := [.int 1, .int 2, .int 3], orderBy := "", limit := 0, offset := 0 }) := by
  constructor
  · unfold QuerySet.Exclude
    rw [hf]
    have hlen : q.whereConds.length > 0 := by rw [hw]; simp
    simp only [Option.map_some', if_pos hlen]
    rw [hw]
    rw [getD_last_append, set_last_append]
  · decide

/-- Witness for C5 at a concrete input: excluding on a fresh builder negates
the single predicate the underlying Filter appended. -/
theorem exclude_negates_last_predicate_witness :
    (QuerySet.new "t").Filter "a" (.int 1) =
      some { tableName := "t", whereConds := ["a = ?"], args := [.int 1],
             orderBy := "", limit := 0, offset := 0 } ∧
    (QuerySet.new "t").Exclude "a" (.int 1) =
      some { tableName := "t", whereConds := ["NOT (a = ?)"], args := [.int 1],
             orderBy := "", limit := 0, offset := 0 } := by
  refine ⟨by decide, ?_⟩
  exact (exclude_negates_last_predicate (QuerySet.new "t") "a" (.int 1)
    { tableName := "t", whereConds := ["a = ?"], args := [.int 1],
      orderBy := "", limit := 0, offset := 0 } [] "a = ?" (by decide) rfl).1

/-- Claim C6 (amended): `DB.Create` invokes the before-create hook before the
record is persisted on the relational backend, and skips it when absent; the
mock backend persists without ever invoking the hook (the mock dispatch
happens before the hook check). -/
theorem create_hook_dispatch (rs : List Row) (fs : List GoStructField)
    (h : List GoStructField → List GoStructField) (tbl : MockTable)
    (hp : insertPayload fs ≠ []) :
    ((DB.Create { mock := some tbl, rows := rs } { fields := fs, beforeCreate := some h }).map
        (fun p => (p.1.mock, p.1.rows, p.2.fields)) =
      (DB.Create { mock := some tbl, rows := rs } { fields := fs, beforeCreate := none }).map
        (fun p => (p.1.mock, p.1.rows, p.2.fields))) ∧
    ((DB.Create { mock := none, rows := rs } { fields := fs, beforeCreate := some h }).map
        (fun p => (p.1.rows, p.2.fields)) =
      (DB.Create { mock := none, rows := rs } { fields := h fs, beforeCreate := none }).map
        (fun p => (p.1.rows, p.2.fields))) ∧
    (DB.Create { mock := none, rows := rs } { fields := fs, beforeCreate := none } =
      .ok ({ mock := none, rows := rs ++ [insertPayload fs] },
           { fields := fs, beforeCreate := none })) := by
  refine ⟨rfl, ?_, ?_⟩
  · unfold DB.Create
    by_cases hp2 : (insertPayload (h fs)).length = 0
    · simp [hp2, Except.map]
    · simp [hp2, Except.map]
  · unfold DB.Create
    have hlen : ¬ (insertPayload fs).length = 0 := by
      simpa [List.length_eq_zero] using hp
    simp [hlen]

/-- Witness for C6 at a concrete input: with no hook, the relational backend
persists the record's own attributes. -/
theorem create_hook_dispatch_witness :
    insertPayload [{ goName := "Name", dbTag := "name,not_null", value := GoValue.str "Ann" }] ≠ [] ∧
    DB.Create { mock := none, rows := [] }
        { fields := [{ goName := "Name", dbTag := "name,not_null", value := .str "Ann" }],
          beforeCreate := none } =
      .ok ({ mock := none, rows := [[("name", .str "Ann")]] },
           { fields := [{ goName := "Name", dbTag := "name,not_null", value := .str "Ann" }],
             beforeCreate := none }) := by
  refine ⟨by decide, ?_⟩
  exact (create_hook_dispatch []
    [{ goName := "Name", dbTag := "name,not_null", value := .str "Ann" }]
    id MockTable.empty (by decide)).2.2

/-- Claim C7 (amended): the column definition lists the constraint tokens in
the order the constraints appear in the field's tag (unknown tokens ignored),
joined after the computed column type. -/
theorem column_constraints_in_tag_order (kind : GoKind) (dbTag : String)
    (hname : (goSplit dbTag ",").getD 0 "" ≠ "") :
    buildColumnDefinition kind dbTag =
      (goSplit dbTag ",").getD 0 "" ++ " " ++
        (processOpts (goSplit dbTag ",").tail (baseColumnType kind) []).1 ++
      (if ((goSplit dbTag ",").tail.filterMap constraintTokenOf).length > 0 then
        " " ++ String.intercalate " " ((goSplit dbTag ",").tail.filterMap constraintTokenOf)
       else "") := by
  unfold buildColumnDefinition
  simp only [if_neg hname, processOpts_snd, List.nil_append]
  split_ifs with hc
  · exact String.append_assoc _ _ _
  · simp

/-- Witness for C7 at a concrete input: a tag listing not-null before
primary-key produces the tokens in exactly that order. -/
theorem column_constraints_in_tag_order_witness :
    (goSplit "id,not_null,primary_key" ",").getD 0 "" ≠ "" ∧
    buildColumnDefinition .intK "id,not_null,primary_key" =
      "id INTEGER NOT NULL PRIMARY KEY" := by
  refine ⟨by decide, ?_⟩
  have h := column_constraints_in_tag_order .intK "id,not_null,primary_key" (by decide)
  rw [h]
  decide

/-- Claim C8: `Update` with an empty change mapping fails with the
empty-update error ("no data to update") and leaves the store untouched;
with a non-empty mapping it applies the changes to exactly the rows
satisfying the accumulated predicates. -/
theorem update_empty_errors_nonempty_applies (qs : QuerySet)
    (data : List (String × GoValue)) (rows : List Row) (hd : data ≠ []) :
    qs.Update [] rows = .error "no data to update" ∧
    qs.applyUpdate [] rows = rows ∧
    qs.Update data rows = .ok (rows.map (fun r =>
      if (evalConds qs.whereConds qs.args r).getD false then applyChanges data r else r)) := by
  refine ⟨by simp [QuerySet.Update], by simp [QuerySet.applyUpdate, QuerySet.Update], ?_⟩
  have hlen : ¬ data.length = 0 := by simpa [List.length_eq_zero] using hd
  unfold QuerySet.Update
  rw [if_neg hlen]
  by_cases hw : qs.whereConds.length > 0
  · rw [if_pos hw]; rfl
  · rw [if_neg hw]
    have h0 : qs.whereConds = [] := by
      cases hq : qs.whereConds with
      | nil => rfl
      | cons a as => rw [hq] at hw; simp at hw
    simp [h0, execUpdate, evalConds]

/-- Witness for C8 at a concrete input: a one-predicate builder updates only
the matching row, and the empty mapping errors leaving the rows alone. -/
theorem update_empty_errors_nonempty_applies_witness :
    ([("name", GoValue.str "X")] : List (String × GoValue)) ≠ [] ∧
    QuerySet.Update { tableName := "users", whereConds := ["age >= ?"], args := [.int 18],
                      orderBy := "", limit := 0, offset := 0 }
      [("name", .str "X")]
      [[("age", .int 30), ("name", .str "A")], [("age", .int 10), ("name", .str "B")]] =
      .ok [[("age", .int 30), ("name", .str "X")], [("age", .int 10), ("name", .str "B")]] ∧
    QuerySet.Update { tableName := "users", whereConds := ["age >= ?"], args := [.int 18],
                      orderBy := "", limit := 0, offset := 0 }
      [] [[("age", .int 30), ("name", .str "A")]] = .error "no data to update" := by
  refine ⟨by decide, ?_, ?_⟩
  · have h := (update_empty_errors_nonempty_applies
      { tableName := "users", whereConds := ["age >= ?"], args := [.int 18],
        orderBy := "", limit := 0, offset := 0 }
      [("name", .str "X")]
      [[("age", .int 30), ("name", .str "A")], [("age", .int 10), ("name", .str "B")]]
      (by decide)).2.2
    rw [h]
    rfl
  · exact (update_empty_errors_nonempty_applies
      { tableName := "users", whereConds := ["age >= ?"], args := [.int 18],
        orderBy := "", limit := 0, offset := 0 }
      [("name", .str "X")]
      [[("age", .int 30), ("name", .str "A")]] (by decide)).1

/-- Claim C9: `Limit(n)` with `n ≤ 0` (resp. `Offset(m)` with `m ≤ 0`) leaves
the generated query without a LIMIT (resp. OFFSET) clause, and running `All`
on such a plan returns all matching rows — ordered and filtered but not
truncated. -/
theorem nonpositive_limit_offset_drop_clauses (qs : QuerySet) (n m : Int) (rows : List Row)
    (hn : n ≤ 0) (hm : m ≤ 0) :
    ((qs.Limit n).Offset m).buildStmt.limitClause = none ∧
    ((qs.Limit n).Offset m).buildStmt.offsetClause = none ∧
    ((qs.Limit n).Offset m).buildSQL =
      renderStmt { ((qs.Limit n).Offset m).buildStmt with
                   limitClause := none, offsetClause := none } ∧
    QuerySet.All { isMock := false, rows := rows } ((qs.Limit n).Offset m) =
      orderRows qs.orderBy (rows.filter (fun r =>
        (evalConds qs.whereConds qs.args r).getD false)) := by
  have hn2 : ¬ (n > 0) := by omega
  have hm2 : ¬ (m > 0) := by omega
  refine ⟨?_, ?_, ?_, ?_⟩
  · simp [QuerySet.Limit, QuerySet.Offset, QuerySet.buildStmt, hn2]
  · simp [QuerySet.Limit, QuerySet.Offset, QuerySet.buildStmt, hm2]
  · rw [buildSQL_eq_renderStmt]
    simp [QuerySet.Limit, QuerySet.Offset, QuerySet.buildStmt, hn2, hm2]
  · simp [QuerySet.All, DB.Query, execStmt, QuerySet.Limit, QuerySet.Offset,
      QuerySet.buildStmt, hn2, hm2]

/-- Witness for C9 at a concrete input: `Limit(0)` followed by `All` returns
the whole one-row table, not zero rows. -/
theorem nonpositive_limit_offset_drop_clauses_witness :
    ((0 : Int) ≤ 0) ∧ ((-1 : Int) ≤ 0) ∧
    QuerySet.All { isMock := false, rows := [[("id", GoValue.int 1)]] }
      (((QuerySet.new "users").Limit 0).Offset (-1)) = [[("id", GoValue.int 1)]] := by
  refine ⟨by decide, by decide, ?_⟩
  have h := (nonpositive_limit_offset_drop_clauses (QuerySet.new "users") 0 (-1)
    [[("id", GoValue.int 1)]] (by decide) (by decide)).2.2.2
  rw [h]
  decide

/-- Claim C10 (amended): `Filter` never validates the field name: for every
field whose extracted lookup is not `isnull` and not an `in` applied to a
slice, the call succeeds and splices the text before the first `__` verbatim
into the newly appended WHERE condition (with one bound argument appended);
`in` with a slice and `isnull` append no condition at all, and `isnull` with
a non-boolean value panics. -/
theorem filter_splices_field_text_verbatim (qs : QuerySet) (field : String) (value : GoValue)
    (hnull : filterLookup field ≠ "isnull")
    (hin : filterLookup field = "in" → ∀ xs, value ≠ .slice xs) :
    ∃ front back w, qs.Filter field value =
      some { qs with
        whereConds := qs.whereConds ++ [front ++ filterFieldName field ++ back],
        args := qs.args ++ [w] } := by
  by_cases h1 : filterLookup field = "exact"
  · exact ⟨"", " = ?", value, by simp [QuerySet.Filter, h1]⟩
  by_cases h2 : filterLookup field = "iexact"
  · exact ⟨"LOWER(", ") = LOWER(?)", value, by simp [QuerySet.Filter, h1, h2]⟩
  by_cases h3 : filterLookup field = "contains"
  · exact ⟨"", " LIKE ?", .str ("%" ++ sprintV value ++ "%"),
      by simp [QuerySet.Filter, h1, h2, h3]⟩
  by_cases h4 : filterLookup field = "icontains"
  · exact ⟨"LOWER(", ") LIKE LOWER(?)", .str ("%" ++ sprintV value ++ "%"),
      by simp [QuerySet.Filter, h1, h2, h3, h4]⟩
  by_cases h5 : filterLookup field = "startswith"
  · exact ⟨"", " LIKE ?", .str (sprintV value ++ "%"),
      by simp [QuerySet.Filter, h1, h2, h3, h4, h5]⟩
  by_cases h6 : filterLookup field = "endswith"
  · exact ⟨"", " LIKE ?", .str ("%" ++ sprintV value),
      by simp [QuerySet.Filter, h1, h2, h3, h4, h5, h6]⟩
  by_cases h7 : filterLookup field = "gt"
  · exact ⟨"", " > ?", value, by simp [QuerySet.Filter, h1, h2, h3, h4, h5, h6, h7]⟩
  by_cases h8 : filterLookup field = "gte"
  · exact ⟨"", " >= ?", value, by simp [QuerySet.Filter, h1, h2, h3, h4, h5, h6, h7, h8]⟩
  by_cases h9 : filterLookup field = "lt"
  · exact ⟨"", " < ?", value, by simp [QuerySet.Filter, h1, h2, h3, h4, h5, h6, h7, h8, h9]⟩
  by_cases h10 : filterLookup field = "lte"
  · exact ⟨"", " <= ?", value,
      by simp [QuerySet.Filter, h1, h2, h3, h4, h5, h6, h7, h8, h9, h10]⟩
  by_cases h11 : filterLookup field = "in"
  · cases value with
    | slice xs => exact absurd rfl (hin h11 xs)
    | str s => exact ⟨"", " = ?", .str s,
        by simp [QuerySet.Filter, h1, h2, h3, h4, h5, h6, h7, h8, h9, h10, h11]⟩
    | int i => exact ⟨"", " = ?", .int i,
        by simp [QuerySet.Filter, h1, h2, h3, h4, h5, h6, h7, h8, h9, h10, h11]⟩
    | uint u => exact ⟨"", " = ?", .uint u,
        by simp [QuerySet.Filter, h1, h2, h3, h4, h5, h6, h7, h8, h9, h10, h11]⟩
    | bool b => exact ⟨"", " = ?", .bool b,
        by simp [QuerySet.Filter, h1, h2, h3, h4, h5, h6, h7, h8, h9, h10, h11]⟩
  exact ⟨"", " = ?", value,
    by simp [QuerySet.Filter, h1, h2, h3, h4, h5, h6, h7, h8, h9, h10, h11, hnull]⟩

/-- Witness for C10 at a concrete input: a field naming no column is spliced
verbatim. -/
theorem filter_splices_field_text_verbatim_witness :
    filterLookup "ghost" ≠ "isnull" ∧
    (∃ front back w, (QuerySet.new "users").Filter "ghost" (.int 5) =
      some { QuerySet.new "users" with
        whereConds := (QuerySet.new "users").whereConds ++
          [front ++ filterFieldName "ghost" ++ back],
        args := (QuerySet.new "users").args ++ [w] }) := by
  refine ⟨by decide, ?_⟩
  exact filter_splices_field_text_verbatim (QuerySet.new "users") "ghost" (.int 5)
    (by decide) (fun h => absurd h (by decide))
